import Mathlib

/-!
Shallow embedding of `src/agents/agent_base.py` (EnglishMentor):
the `ApiRateLimiter` daily quota tracker and the quota-gating parts of
`AgentBase` (`check_api_limit`, `_get_time_until_tomorrow`,
`chat_with_history`, `create_chatbot`, intro-file loading in `__init__`).

Python state is passed explicitly: the limiter's mutable fields become a
record, the wall clock becomes explicit `today : String` (the value of
`str(date.today())`) and `nowSec : Nat` (whole seconds elapsed since local
midnight) arguments, file-system reads become an explicit `QuotaFile` /
`IntroFile` value, and every `_save_counter` disk write is recorded as a
`(date, count)` pair in an output list.  Uncaught Python exceptions become
`Except` errors.
-/

/-- In-memory state of an `ApiRateLimiter` instance: the mutable attributes
`self.limit`, `self.count`, `self.date`.  Counts come from JSON, so they are
modelled as unbounded integers. -/
structure ApiRateLimiter where
  limit : Int
  count : Int
  date : String
  deriving DecidableEq, Repr

/-- Errors of the Python runtime that can escape the embedded code. -/
inductive PyError where
  | attributeError
  | valueError (msg : String)
  deriving DecidableEq, Repr

/-- What `open` + `json.load` find at the limiter's storage path:
no file at all, a file that makes `json.load` raise `JSONDecodeError`,
a file holding well-formed JSON that is not an object (a list, a number, …,
on which `data.get` raises `AttributeError`), or a JSON object whose
optional `"date"` / `"count"` fields are modelled by `Option`s
(`data.get` returns `None`, resp. the default `0`, for a missing key). -/
inductive QuotaFile where
  | missing
  | notJson
  | jsonNonObject
  | record (date : Option String) (count : Option Int)
  deriving DecidableEq, Repr

/-- Embeds `ApiRateLimiter._save_counter`: the `(date, count)` pair dumped
wholesale over the storage file. -/
def save_counter (st : ApiRateLimiter) : String × Int :=
  (st.date, st.count)

/-- Embeds `ApiRateLimiter._load_or_initialize_counter` (also the tail of
`__init__`).  Returns the constructed in-memory state together with the list
of disk writes performed, or the Python exception that escapes.  Branches,
in source order: file exists and parses to an object — reset in memory (no
write) on a date mismatch, else adopt the stored fields; file exists but is
not a JSON object — `data.get` raises `AttributeError`, which the
`except (json.JSONDecodeError, FileNotFoundError)` clause does not catch;
no file, or `JSONDecodeError` — day-zero state, written out at once. -/
def load_or_initialize_counter (limit : Int) (file : QuotaFile) (today : String) :
    Except PyError (ApiRateLimiter × List (String × Int)) :=
  match file with
  | QuotaFile.record d c =>
      if d ≠ some today then
        Except.ok ({ limit := limit, count := 0, date := today }, [])
      else
        Except.ok ({ limit := limit, count := c.getD 0, date := today }, [])
  | QuotaFile.jsonNonObject => Except.error PyError.attributeError
  | QuotaFile.missing =>
      Except.ok ({ limit := limit, count := 0, date := today },
        [save_counter { limit := limit, count := 0, date := today }])
  | QuotaFile.notJson =>
      Except.ok ({ limit := limit, count := 0, date := today },
        [save_counter { limit := limit, count := 0, date := today }])

/-- Embeds `ApiRateLimiter.increment`: roll the counter over if the stored
date is not `today`, deny when `count >= limit`, otherwise bump the count
and persist.  Returns (result, new state, disk writes). -/
def increment (st : ApiRateLimiter) (today : String) :
    Bool × ApiRateLimiter × List (String × Int) :=
  let st1 := if st.date ≠ today then { st with count := 0, date := today } else st
  if st1.count ≥ st1.limit then
    (false, st1, [])
  else
    let st2 := { st1 with count := st1.count + 1 }
    (true, st2, [save_counter st2])

/-- Embeds `ApiRateLimiter.get_remaining`: `limit` on a date mismatch,
`max(0, limit - count)` otherwise.  Reads no state it does not return and
performs no writes. -/
def get_remaining (st : ApiRateLimiter) (today : String) : Int :=
  if st.date ≠ today then st.limit else max 0 (st.limit - st.count)

/-- The day-zero limiter state: `count = 0`, `date = today`. -/
def fresh_state (limit : Int) (today : String) : ApiRateLimiter :=
  { limit := limit, count := 0, date := today }

/-- Runs `n` consecutive `increment` calls (all with the same `today`),
collecting the boolean result of each call in order. -/
def run_increments (st : ApiRateLimiter) (today : String) : Nat → ApiRateLimiter × List Bool
  | 0 => (st, [])
  | Nat.succ n =>
      let r := increment st today
      let rest := run_increments r.2.1 today n
      (rest.1, r.1 :: rest.2)

/-- One call against the limiter, tagged with the value of
`str(date.today())` observed during that call. -/
inductive LimiterOp where
  | tryIncrement (today : String)
  | remaining (today : String)
  deriving DecidableEq, Repr

/-- State transition of one limiter call: `increment` mutates `self`,
`get_remaining` does not. -/
def apply_op (st : ApiRateLimiter) : LimiterOp → ApiRateLimiter
  | LimiterOp.tryIncrement today => (increment st today).2.1
  | LimiterOp.remaining _ => st

/-- Folds a call sequence over the limiter state. -/
def apply_ops (st : ApiRateLimiter) : List LimiterOp → ApiRateLimiter
  | [] => st
  | op :: ops => apply_ops (apply_op st op) ops

/-- The calendar day of the last mutating access in a call sequence:
the `today` of the last `tryIncrement`, or the construction day `d0` if the
sequence has no `tryIncrement`. -/
def last_mutating_day (d0 : String) : List LimiterOp → String
  | [] => d0
  | LimiterOp.tryIncrement t :: ops => last_mutating_day t ops
  | LimiterOp.remaining _ :: ops => last_mutating_day d0 ops

/-- Embeds `AgentBase._get_time_until_tomorrow` at whole-second resolution:
`nowSec` is the number of seconds since local midnight, so
`tomorrow - now` is `86400 - nowSec` seconds; `timedelta` normalisation
makes `.seconds` that value modulo 86400 (exact midnight gives a one-day
delta whose `.seconds` is 0); `divmod(delta.seconds, 3600)` and
`divmod(remainder, 60)` yield the hour and minute fields. -/
def get_time_until_tomorrow (nowSec : Nat) : String :=
  let deltaSeconds := (86400 - nowSec) % 86400
  let hours := deltaSeconds / 3600
  let remainder := deltaSeconds % 3600
  let minutes := remainder / 60
  toString hours ++ "小时" ++ toString minutes ++ "分钟"

/-- The message of the `RateLimitExceededError` raised by
`AgentBase.check_api_limit` when `increment` returns `False`. -/
def rate_limit_message (nowSec : Nat) : String :=
  "达到今日API调用上限(50次)，请等待" ++ get_time_until_tomorrow nowSec ++ "后再试"

/-- Observable outcome of one `AgentBase.chat_with_history` call:
the returned string, how many times the external completion capability
(`self.chatbot_with_history.invoke`) was reached, the limiter state after
the call, and the disk writes performed. -/
structure ChatOutcome where
  reply : String
  apiCalls : Nat
  limiter : ApiRateLimiter
  writes : List (String × Int)
  deriving DecidableEq, Repr

/-- Embeds `AgentBase.chat_with_history` composed with `check_api_limit`:
`check_api_limit` calls `increment`; on denial it raises
`RateLimitExceededError`, which `chat_with_history` catches and turns into
the string `"抱歉，" + str(e)` without invoking the completion capability;
on success the capability is invoked once and its reply
(`completionReply`) is returned. -/
def chat_with_history (st : ApiRateLimiter) (today : String) (nowSec : Nat)
    (completionReply : String) : ChatOutcome :=
  let r := increment st today
  if r.1 then
    { reply := completionReply, apiCalls := 1, limiter := r.2.1, writes := r.2.2 }
  else
    { reply := "抱歉，" ++ rate_limit_message nowSec, apiCalls := 0,
      limiter := r.2.1, writes := r.2.2 }

/-- Python `str.strip()` with no argument: drop leading and trailing
whitespace. -/
def py_strip (s : String) : String :=
  String.mk (((s.data.dropWhile Char.isWhitespace).reverse.dropWhile
    Char.isWhitespace).reverse)

/-- Embeds the credential check in `AgentBase.create_chatbot`.  The argument
is `os.getenv("DASHSCOPE_API_KEY")`: `none` when the variable is unset.  The
source runs `os.getenv(...).strip()` first, so an unset variable raises
`AttributeError` on `None.strip()`; only a set-but-blank key reaches the
`if not api_key: raise ValueError(...)` guard.  On success the stripped key
is returned (the subsequent `ChatOpenAI` construction is configuration
only, no network activity). -/
def create_chatbot (env : Option String) : Except PyError String :=
  match env with
  | none => Except.error PyError.attributeError
  | some k =>
      let apiKey := py_strip k
      if apiKey = "" then
        Except.error (PyError.valueError "API密钥未设置，请设置环境变量 DASHSCOPE_API_KEY")
      else
        Except.ok apiKey

/-- Errors `AgentBase.__init__` can raise while loading the intro file. -/
inductive AgentError where
  | introNotFound
  | introInvalidJson
  deriving DecidableEq, Repr

/-- What `open` + `json.load` find at an intro-file path.  The parsed
messages themselves are opaque here; they are modelled as strings. -/
inductive IntroFile where
  | missing
  | invalidJson
  | valid (msgs : List String)
  deriving DecidableEq, Repr

/-- Embeds `AgentBase.load_intro`: `FileNotFoundError` becomes the
missing-intro-file error, `json.JSONDecodeError` becomes `ValueError`. -/
def load_intro (f : IntroFile) : Except AgentError (List String) :=
  match f with
  | IntroFile.missing => Except.error AgentError.introNotFound
  | IntroFile.invalidJson => Except.error AgentError.introInvalidJson
  | IntroFile.valid msgs => Except.ok msgs

/-- Embeds the intro handling of `AgentBase.__init__`:
`self.intro_file = os.path.join(PROJECT_ROOT, intro_file) if intro_file
else None` and `self.intro_messages = self.load_intro() if self.intro_file
else []`.  A `none` (or Python-falsy empty-string) argument never touches
the file system.  `fs` maps an intro-file name to its contents; the second
component of the result lists the files actually opened. -/
def init_intro_messages (introFile : Option String) (fs : String → IntroFile) :
    Except AgentError (List String) × List String :=
  match introFile with
  | none => (Except.ok [], [])
  | some f =>
      if f = "" then (Except.ok [], [])
      else (load_intro (fs f), [f])

/-! Theorems -/

/-- Claim C2: for a tracker whose stored date equals today and whose count
is at least the limit, `increment` returns `false`, leaves the in-memory
count and date unchanged, and performs no disk write. -/
theorem quota_c2 (st : ApiRateLimiter) (today : String)
    (hd : st.date = today) (hc : st.limit ≤ st.count) :
    increment st today = (false, st, []) := by
  subst hd
  simp [increment, hc]

/-- Witness for C2 at limit = 50, count = 50. -/
theorem quota_c2_witness :
    increment { limit := 50, count := 50, date := "2026-01-01" } "2026-01-01"
      = (false, { limit := 50, count := 50, date := "2026-01-01" }, []) :=
  quota_c2 { limit := 50, count := 50, date := "2026-01-01" } "2026-01-01" rfl (by decide)

/-- Claim C3: for a tracker whose stored date differs from today (and a
positive limit, as the data model requires), `get_remaining` returns the
limit without mutating anything, and `increment` succeeds, leaving count 1
and date today, persisting `(today, 1)`. -/
theorem quota_c3 (st : ApiRateLimiter) (today : String)
    (hd : st.date ≠ today) (hl : 0 < st.limit) :
    get_remaining st today = st.limit ∧
    increment st today
      = (true, { limit := st.limit, count := 1, date := today }, [(today, 1)]) := by
  constructor
  · simp [get_remaining, hd]
  · simp [increment, hd, save_counter, hl.not_le]

/-- Witness for C3 with yesterday's count already above the limit. -/
theorem quota_c3_witness :
    get_remaining { limit := 5, count := 5, date := "2025-12-31" } "2026-01-01" = 5 ∧
    increment { limit := 5, count := 5, date := "2025-12-31" } "2026-01-01"
      = (true, { limit := 5, count := 1, date := "2026-01-01" }, [("2026-01-01", 1)]) :=
  quota_c3 { limit := 5, count := 5, date := "2025-12-31" } "2026-01-01" (by decide) (by decide)

/-- Claim C4: round-trip through storage.  Writing a tracker state with
`save_counter` and reconstructing a tracker over that record on the same
calendar day and with the same limit yields a state with the same
`get_remaining` (and the reload itself writes nothing). -/
theorem quota_c4 (st : ApiRateLimiter) :
    ∃ st2,
      load_or_initialize_counter st.limit
          (QuotaFile.record (some (save_counter st).1) (some (save_counter st).2)) st.date
        = Except.ok (st2, []) ∧
      get_remaining st2 st.date = get_remaining st st.date := by
  refine ⟨st, ?_, rfl⟩
  simp [load_or_initialize_counter, save_counter]

/-- Witness for C4 at a concrete persisted state. -/
theorem quota_c4_witness :
    ∃ st2,
      load_or_initialize_counter (50 : Int)
          (QuotaFile.record (some "2026-01-01") (some 7)) "2026-01-01"
        = Except.ok (st2, []) ∧
      get_remaining st2 "2026-01-01"
        = get_remaining { limit := 50, count := 7, date := "2026-01-01" } "2026-01-01" :=
  quota_c4 { limit := 50, count := 7, date := "2026-01-01" }

/-- Claim C8: constructing a tracker over a record whose stored date differs
from today resets count to 0 and date to today in memory with NO disk write
(the old record stays on disk), `get_remaining` immediately returns the
limit, and the first write happens only on the next successful increment. -/
theorem quota_c8 (limit c0 : Int) (d0 today : String)
    (hd : d0 ≠ today) (hl : 0 < limit) :
    load_or_initialize_counter limit (QuotaFile.record (some d0) (some c0)) today
      = Except.ok (fresh_state limit today, []) ∧
    get_remaining (fresh_state limit today) today = limit ∧
    increment (fresh_state limit today) today
      = (true, { limit := limit, count := 1, date := today }, [(today, 1)]) := by
  refine ⟨?_, ?_, ?_⟩
  · simp [load_or_initialize_counter, fresh_state, hd]
  · simp [get_remaining, fresh_state]
    omega
  · simp [increment, fresh_state, save_counter, hl.not_le]

/-- Witness for C8: yesterday's record held count 37. -/
theorem quota_c8_witness :
    load_or_initialize_counter 50 (QuotaFile.record (some "2025-12-31") (some 37)) "2026-01-01"
      = Except.ok (fresh_state 50 "2026-01-01", []) ∧
    get_remaining (fresh_state 50 "2026-01-01") "2026-01-01" = 50 ∧
    increment (fresh_state 50 "2026-01-01") "2026-01-01"
      = (true, { limit := 50, count := 1, date := "2026-01-01" }, [("2026-01-01", 1)]) :=
  quota_c8 50 37 "2025-12-31" "2026-01-01" (by decide) (by decide)

/-- Counterexample for C5 as stated: a file holding well-formed JSON that is
not the expected `\x7bdate, count\x7d` object (e.g. the list `[]`) is "not
parseable as the expected structure", yet construction does not produce a
day-zero tracker: `data.get` raises an uncaught `AttributeError`. -/
theorem quota_c5_counterexample :
    load_or_initialize_counter 50 QuotaFile.jsonNonObject "2026-01-01"
      = Except.error PyError.attributeError := rfl

/-- Claim C5 (amended): for a storage path whose file is missing or whose
contents fail JSON decoding, construction yields the day-zero state
(count 0, date today), writes a fresh `(today, 0)` record, and the first
`get_remaining` returns the limit (positive, per the data model).
Well-formed JSON of the wrong shape instead escapes as `AttributeError`. -/
theorem quota_c5 (limit : Int) (today : String) (file : QuotaFile)
    (hf : file = QuotaFile.missing ∨ file = QuotaFile.notJson) (hl : 0 < limit) :
    load_or_initialize_counter limit file today
      = Except.ok (fresh_state limit today, [(today, 0)]) ∧
    get_remaining (fresh_state limit today) today = limit := by
  have hr : get_remaining (fresh_state limit today) today = limit := by
    simp [get_remaining, fresh_state]
    omega
  rcases hf with h | h <;> subst h <;>
    exact ⟨by simp [load_or_initialize_counter, save_counter, fresh_state], hr⟩

/-- Witness for C5 (amended) on a missing file with limit 50. -/
theorem quota_c5_witness :
    load_or_initialize_counter 50 QuotaFile.missing "2026-01-01"
      = Except.ok (fresh_state 50 "2026-01-01", [("2026-01-01", 0)]) ∧
    get_remaining (fresh_state 50 "2026-01-01") "2026-01-01" = 50 :=
  quota_c5 50 "2026-01-01" QuotaFile.missing (Or.inl rfl) (by decide)

/-- From a same-day state with `0 ≤ count` and `count + n ≤ limit`, a run of
`n` increments returns `true` every time and ends with `count + n` calls
recorded. -/
theorem run_increments_ok (limit : Int) (today : String) (n : Nat) :
    ∀ c : Int, 0 ≤ c → c + n ≤ limit →
      run_increments { limit := limit, count := c, date := today } today n
        = ({ limit := limit, count := c + n, date := today }, List.replicate n true) := by
  induction n with
  | zero => intro c hc hn; simp [run_increments]
  | succ n ih =>
      intro c hc hn
      have hlt : c < limit := by
        have hn0 : (0 : Int) ≤ (n : Int) := Int.natCast_nonneg n
        push_cast at hn
        omega
      have hstep : increment { limit := limit, count := c, date := today } today
          = (true, { limit := limit, count := c + 1, date := today }, [(today, c + 1)]) := by
        simp [increment, save_counter, hlt.not_le]
      have hrec := ih (c + 1) (by omega) (by push_cast at hn ⊢; omega)
      have hcount : c + 1 + (n : Int) = c + ((n + 1 : Nat) : Int) := by push_cast; ring
      simp only [run_increments, hstep, hrec, List.replicate_succ, hcount]

/-- Claim C1: from the day-zero state with positive limit, every run of
`n ≤ limit` increments within one calendar day returns `true` on every call,
and after `k` calls `get_remaining` is exactly `limit - k` (so it steps
`limit, limit - 1, …` down by one per successful call); in particular, with
limit 2 over empty storage, call 1 returns true with 1 remaining, call 2
returns true with 0 remaining, and call 3 returns false with 0 remaining. -/
theorem quota_c1 (limit : Int) (n k : Nat) (today : String)
    (hl : 0 < limit) (hn : (n : Int) ≤ limit) (hk : k ≤ n) :
    (run_increments (fresh_state limit today) today n).2 = List.replicate n true ∧
    get_remaining (run_increments (fresh_state limit today) today k).1 today
      = limit - (k : Int) ∧
    load_or_initialize_counter 2 QuotaFile.missing today
      = Except.ok (fresh_state 2 today, [(today, 0)]) ∧
    run_increments (fresh_state 2 today) today 1
      = ({ limit := 2, count := 1, date := today }, [true]) ∧
    get_remaining (run_increments (fresh_state 2 today) today 1).1 today = 1 ∧
    run_increments (fresh_state 2 today) today 2
      = ({ limit := 2, count := 2, date := today }, [true, true]) ∧
    get_remaining (run_increments (fresh_state 2 today) today 2).1 today = 0 ∧
    run_increments (fresh_state 2 today) today 3
      = ({ limit := 2, count := 2, date := today }, [true, true, false]) ∧
    get_remaining (run_increments (fresh_state 2 today) today 3).1 today = 0 := by
  have hkI : (k : Int) ≤ limit := le_trans (by exact_mod_cast hk) hn
  have hrn := run_increments_ok limit today n 0 le_rfl (by omega)
  have hrk := run_increments_ok limit today k 0 le_rfl (by omega)
  refine ⟨?_, ?_, ?_, ?_, ?_, ?_, ?_, ?_, ?_⟩
  · rw [fresh_state, hrn]
  · rw [fresh_state, hrk]
    simp [get_remaining]
    omega
  · simp [load_or_initialize_counter, save_counter, fresh_state]
  all_goals norm_num [run_increments, increment, fresh_state, save_counter, get_remaining]

/-- Witness for C1 at limit 2, a 2-call run, checked after call 1. -/
theorem quota_c1_witness :
    (0 : Int) < 2 ∧ ((2 : Nat) : Int) ≤ 2 ∧ (1 : Nat) ≤ 2 ∧
    ((run_increments (fresh_state 2 "2026-01-01") "2026-01-01" 2).2
        = List.replicate 2 true ∧
      get_remaining (run_increments (fresh_state 2 "2026-01-01") "2026-01-01" 1).1 "2026-01-01"
        = 2 - ((1 : Nat) : Int)) :=
  ⟨by decide, by decide, by decide,
    let h := quota_c1 2 2 1 "2026-01-01" (by decide) (by decide) (by decide)
    ⟨h.1, h.2.1⟩⟩

/-- One `increment` call, from any state with `0 ≤ count ≤ limit` and a
positive limit, keeps the limit, keeps `0 ≤ count ≤ limit`, and leaves the
stored date equal to the `today` observed by the call. -/
theorem increment_invariant (st : ApiRateLimiter) (t : String)
    (hl : 0 < st.limit) (h0 : 0 ≤ st.count) (h1 : st.count ≤ st.limit) :
    ((increment st t).2.1).limit = st.limit ∧
    0 ≤ ((increment st t).2.1).count ∧
    ((increment st t).2.1).count ≤ st.limit ∧
    ((increment st t).2.1).date = t := by
  by_cases hd : st.date = t
  · subst hd
    by_cases hc : st.limit ≤ st.count
    · simp [increment, hc]
      omega
    · simp [increment, hc]
      omega
  · simp [increment, hd, hl.not_le]
    omega

/-- Starting from any well-formed state, a sequence of limiter calls keeps
the limit and the count bounds, and leaves the date at the day of the last
mutating access. -/
theorem apply_ops_invariant (limit : Int) (hl : 0 < limit) :
    ∀ (ops : List LimiterOp) (st : ApiRateLimiter), st.limit = limit →
      0 ≤ st.count → st.count ≤ limit →
      (apply_ops st ops).limit = limit ∧
      0 ≤ (apply_ops st ops).count ∧
      (apply_ops st ops).count ≤ limit ∧
      (apply_ops st ops).date = last_mutating_day st.date ops := by
  intro ops
  induction ops with
  | nil =>
      intro st h h0 h1
      exact ⟨h, h0, h1, rfl⟩
  | cons op ops ih =>
      intro st h h0 h1
      cases op with
      | tryIncrement t =>
          have hinv := increment_invariant st t (h ▸ hl) h0 (h ▸ h1)
          have hrec := ih ((increment st t).2.1) (hinv.1.trans h)
            hinv.2.1 (h ▸ hinv.2.2.1)
          simpa [apply_ops, apply_op, last_mutating_day, hinv.2.2.2] using hrec
      | remaining t =>
          simpa [apply_ops, apply_op, last_mutating_day] using ih st h h0 h1

/-- Claim C9: from the day-zero state with positive limit, after any
sequence of `increment` / `get_remaining` calls the count satisfies
`0 ≤ count ≤ limit` and the stored date is the calendar day observed by the
last mutating access (the construction day if none followed). -/
theorem quota_c9 (limit : Int) (d0 : String) (ops : List LimiterOp)
    (hl : 0 < limit) :
    0 ≤ (apply_ops (fresh_state limit d0) ops).count ∧
    (apply_ops (fresh_state limit d0) ops).count ≤ limit ∧
    (apply_ops (fresh_state limit d0) ops).date = last_mutating_day d0 ops := by
  have h := apply_ops_invariant limit hl ops (fresh_state limit d0) rfl le_rfl hl.le
  exact ⟨h.2.1, h.2.2.1, h.2.2.2⟩

/-- Witness for C9: limit 2, three same-day increments (the third denied),
a query, then a rollover increment on the next day. -/
theorem quota_c9_witness :
    0 ≤ (apply_ops (fresh_state 2 "2026-01-01")
        [LimiterOp.tryIncrement "2026-01-01", LimiterOp.tryIncrement "2026-01-01",
         LimiterOp.tryIncrement "2026-01-01", LimiterOp.remaining "2026-01-01",
         LimiterOp.tryIncrement "2026-01-02"]).count ∧
    (apply_ops (fresh_state 2 "2026-01-01")
        [LimiterOp.tryIncrement "2026-01-01", LimiterOp.tryIncrement "2026-01-01",
         LimiterOp.tryIncrement "2026-01-01", LimiterOp.remaining "2026-01-01",
         LimiterOp.tryIncrement "2026-01-02"]).count ≤ 2 ∧
    (apply_ops (fresh_state 2 "2026-01-01")
        [LimiterOp.tryIncrement "2026-01-01", LimiterOp.tryIncrement "2026-01-01",
         LimiterOp.tryIncrement "2026-01-01", LimiterOp.remaining "2026-01-01",
         LimiterOp.tryIncrement "2026-01-02"]).date
      = last_mutating_day "2026-01-01"
          [LimiterOp.tryIncrement "2026-01-01", LimiterOp.tryIncrement "2026-01-01",
           LimiterOp.tryIncrement "2026-01-01", LimiterOp.remaining "2026-01-01",
           LimiterOp.tryIncrement "2026-01-02"] :=
  quota_c9 2 "2026-01-01"
    [LimiterOp.tryIncrement "2026-01-01", LimiterOp.tryIncrement "2026-01-01",
     LimiterOp.tryIncrement "2026-01-01", LimiterOp.remaining "2026-01-01",
     LimiterOp.tryIncrement "2026-01-02"] (by decide)

/-- Claim C6: when the quota tracker denies the increment, `chat_with_history`
returns a normal string (no exception escapes), the external completion
capability is invoked zero times, and the returned message contains a
countdown formatted as the hours and minutes until the next local midnight
(`nowSec` seconds after which midnight arrives in `86400 - nowSec` seconds). -/
theorem agent_c6 (st : ApiRateLimiter) (today : String) (nowSec : Nat)
    (completionReply : String) (hdenied : (increment st today).1 = false) :
    (chat_with_history st today nowSec completionReply).apiCalls = 0 ∧
    (chat_with_history st today nowSec completionReply).reply
      = "抱歉，" ++ rate_limit_message nowSec ∧
    rate_limit_message nowSec
      = "达到今日API调用上限(50次)，请等待" ++ get_time_until_tomorrow nowSec ++ "后再试" ∧
    get_time_until_tomorrow nowSec
      = toString ((86400 - nowSec) % 86400 / 3600) ++ "小时"
        ++ toString ((86400 - nowSec) % 86400 % 3600 / 60) ++ "分钟" := by
  refine ⟨?_, ?_, rfl, rfl⟩ <;> simp [chat_with_history, hdenied]

/-- Witness for C6: a saturated tracker at 10:30:00 local time. -/
theorem agent_c6_witness :
    (chat_with_history { limit := 50, count := 50, date := "2026-01-01" }
        "2026-01-01" 37800 "unused").apiCalls = 0 ∧
    (chat_with_history { limit := 50, count := 50, date := "2026-01-01" }
        "2026-01-01" 37800 "unused").reply = "抱歉，" ++ rate_limit_message 37800 ∧
    rate_limit_message 37800
      = "达到今日API调用上限(50次)，请等待" ++ get_time_until_tomorrow 37800 ++ "后再试" ∧
    get_time_until_tomorrow 37800
      = toString ((86400 - 37800) % 86400 / 3600) ++ "小时"
        ++ toString ((86400 - 37800) % 86400 % 3600 / 60) ++ "分钟" :=
  agent_c6 { limit := 50, count := 50, date := "2026-01-01" } "2026-01-01" 37800
    "unused" (by decide)

/-- Claim C7 at its failing input: with the credential absent
(`os.getenv` returns `None`), `create_chatbot` raises `AttributeError`
from `None.strip()`, not the intended configuration error; the
`ValueError` path is reachable only for a present-but-blank key. -/
theorem agent_c7_missing_key :
    create_chatbot none = Except.error PyError.attributeError ∧
    create_chatbot (some "")
      = Except.error (PyError.valueError "API密钥未设置，请设置环境变量 DASHSCOPE_API_KEY") ∧
    PyError.attributeError
      ≠ PyError.valueError "API密钥未设置，请设置环境变量 DASHSCOPE_API_KEY" := by
  refine ⟨rfl, by simp [create_chatbot, py_strip], by simp⟩

/-- Claim C10: constructing an agent with no intro source loads no intro
file and yields an empty intro-message list, and the missing-intro-file
error can only arise when an intro source was actually supplied. -/
theorem agent_c10 :
    (∀ fs : String → IntroFile, init_intro_messages none fs = (Except.ok [], [])) ∧
    (∀ (introFile : Option String) (fs : String → IntroFile),
      (init_intro_messages introFile fs).1 = Except.error AgentError.introNotFound →
      introFile ≠ none) := by
  refine ⟨fun fs => rfl, ?_⟩
  rintro introFile fs herr rfl
  simp [init_intro_messages] at herr

/-- Witness for C10: no intro source loads nothing; a supplied-but-missing
intro file shows the error arises only with a supplied source. -/
theorem agent_c10_witness :
    init_intro_messages none (fun _ => IntroFile.missing) = (Except.ok [], []) ∧
    (some "english_mentor_intro.json" : Option String) ≠ none :=
  ⟨agent_c10.1 (fun _ => IntroFile.missing),
    agent_c10.2 (some "english_mentor_intro.json") (fun _ => IntroFile.missing)
      rfl⟩
